import Mathlib

/-!
Shallow embedding of the OmniScience single-page workspace (src/App.tsx):
the virtual-file store, tab management, the sheet and slide editors'
onChange pipelines, the chat send flow, and the assistant action
dispatcher.  JavaScript strings are modelled as Lean `String` (with
character-level split/join helpers mirroring `String.prototype.split` on a
one-character separator), the runtime value `undefined` as `none` of an
`Option`, and `Math.random`-generated ids as explicit oracle parameters.
-/

set_option maxRecDepth 4000

namespace OmniApp

/-- JS value-or-default `x || d` for an optional string: `undefined` and the
empty string (both falsy) select the default. -/
def jsOr (o : Option String) (d : String) : String :=
  match o with
  | none => d
  | some s => if s = "" then d else s

/-- Characters stripped by `String.prototype.trim` (the common whitespace
code points actually produced by a text input). -/
def isJsSpace (c : Char) : Bool :=
  c = ' ' || c = '\t' || c = '\n' || c = '\r' || c = '\x0b' || c = '\x0c'

/-- JS `String.prototype.trim`: strip leading and trailing whitespace. -/
def jsTrim (s : String) : String :=
  ⟨((s.data.dropWhile isJsSpace).reverse.dropWhile isJsSpace).reverse⟩

/-- JS `String.prototype.split` with a one-character separator, on the
underlying character list.  `"".split(sep)` is `[""]`, and a trailing
separator yields a trailing empty piece, exactly as in JS. -/
def splitChar (sep : Char) : List Char → List (List Char)
  | [] => [[]]
  | c :: cs =>
    if c = sep then [] :: splitChar sep cs
    else
      match splitChar sep cs with
      | [] => [[c]]
      | r :: rs => (c :: r) :: rs

/-- JS `Array.prototype.join` with a one-character separator, on character
lists. -/
def joinChar (sep : Char) : List (List Char) → List Char
  | [] => []
  | [l] => l
  | l :: ls => l ++ sep :: joinChar sep ls

/-- Pad a list on the right with copies of `x` up to length `n` (the
`while (len < n) push(x)` loops of ensureGrid). -/
def padRight (n : Nat) (x : α) (l : List α) : List α :=
  l ++ List.replicate (n - l.length) x

/-- Runtime model of the `VirtualFile` interface (src/App.tsx lines 43-49).
The interface declares `content: string`, but the runtime value can be
`undefined` when an `update_file` directive omits its `content` field, so
the field is modelled as `Option String` (`none` = `undefined`). -/
structure VirtualFile where
  id : String
  name : String
  type : String
  content : Option String
  deriving DecidableEq

/-- The `Message` interface (lines 51-56). -/
structure Message where
  role : String
  text : String
  specialist : Option String
  timestamp : Nat
  deriving DecidableEq

/-- The parsed JSON action block of an assistant reply (lines 84-92):
optional fields hold `none` when the JSON omits them. -/
structure Directive where
  action : String
  file_id : Option String
  file_type : Option String
  file_name : Option String
  content : Option String
  deriving DecidableEq

/-- The workspace store's tab-and-file state (lines 346-350): `files`,
`openTabIds`, and `activeTabId` (`""` = no active tab, as produced by the
source's `|| ''`). -/
structure Workspace where
  files : List VirtualFile
  openTabIds : List String
  activeTabId : String
  deriving DecidableEq

/-- JS indexing-or-empty `l[i] || ''`: an out-of-range access yields
`undefined` and the `||` collapses it (and an empty string) to `''`. -/
def jsIndexOr (l : List String) (i : Nat) : String :=
  (l[i]?).getD ""

/-- The Tab onClose handler (lines 659-663): remove the id from the open
tabs and, when it was active, fall back to `newOpen[newOpen.length-1] || ''`. -/
def closeTab (ws : Workspace) (id : String) : Workspace :=
  let newOpen := ws.openTabIds.filter (fun tid => tid ≠ id)
  { ws with
      openTabIds := newOpen,
      activeTabId := if ws.activeTabId = id then jsIndexOr newOpen (newOpen.length - 1)
                     else ws.activeTabId }

/-- Reading of claim C1's "the tab immediately preceding the closed tab in
the remaining sequence": the id standing just before `id` in the open-tab
order (the filter keeps relative order, so it is also its predecessor in
the remaining sequence). -/
def specPrecedingTab : List String → String → Option String
  | [], _ => none
  | [_], _ => none
  | a :: b :: rest, id => if b = id then some a else specPrecedingTab (b :: rest) id

/-- The `extensions` record of createNewFile (lines 370-372); defined on
the seven `FileType` strings. -/
def extensionFor (type : String) : String :=
  if type = "code" then "py"
  else if type = "doc" then "doc"
  else if type = "sheet" then "csv"
  else if type = "whiteboard" then "board"
  else if type = "chat" then "chat"
  else if type = "slide" then "slide"
  else if type = "note" then "txt"
  else ""

/-- The type-specific default contents of createNewFile (lines 375-380). -/
def defaultContent (type : String) : String :=
  if type = "sheet" then "Header 1,Header 2,Header 3\nData 1,Data 2,Data 3"
  else if type = "chat" then "[]"
  else if type = "code" then "# New Script"
  else if type = "slide" then "Title Slide\nSubtitle goes here"
  else ""

/-- createNewFile (lines 368-393).  `newId` is the id produced by
`Math.random().toString(36).substr(2, 9)`, passed as an explicit oracle
parameter — the source performs no uniqueness check on it.  `name` and
`content` model the optional arguments (`none` = omitted; an omitted
`content` defaults to `''` and then to the type-specific template via
`content || (...)`). -/
def createNewFile (ws : Workspace) (newId : String) (type : String)
    (name : Option String) (content : Option String) : Workspace :=
  let fileName := jsOr name ("Untitled." ++ extensionFor type)
  let initialContent := jsOr (some (content.getD "")) (defaultContent type)
  { files := ws.files ++ [⟨newId, fileName, type, some initialContent⟩],
    openTabIds := ws.openTabIds ++ [newId],
    activeTabId := newId }

/-- updateFileContent (lines 395-397): replace the content of every file
whose id matches, keeping id, name and type.  The new content is stored
verbatim, so the dispatcher can pass the runtime value `undefined`
(`none`) through it. -/
def updateFileContent (files : List VirtualFile) (id : String)
    (content : Option String) : List VirtualFile :=
  files.map (fun f => if f.id = id then { f with content := content } else f)

/-- The update_file target search (line 460):
`files.find(f => f.name === d.file_name || f.id === d.file_id)`.
A strict comparison with an absent field (`undefined`) is false. -/
def findTarget (files : List VirtualFile) (d : Directive) : Option VirtualFile :=
  files.find? (fun f => some f.name == d.file_name || some f.id == d.file_id)

/-- The update_file dispatch branch (lines 459-461): update the resolved
target's content, or silently drop the directive when nothing matches. -/
def dispatchUpdateFile (files : List VirtualFile) (d : Directive) : List VirtualFile :=
  match findTarget files d with
  | some target => updateFileContent files target.id d.content
  | none => files

/-- Reading of claim C5's resolution rule: match `file_name` first across
the whole file set, and fall back to `file_id` only when no file matches
by name. -/
def specResolveTarget (files : List VirtualFile) (d : Directive) : Option VirtualFile :=
  match files.find? (fun f => some f.name == d.file_name) with
  | some t => some t
  | none => files.find? (fun f => some f.id == d.file_id)

/-- SheetEditor's parse of a sheet file (line 222): newline-separated rows
of comma-separated cells. -/
def sheetRows (content : String) : List (List String) :=
  (splitChar '\n' content.data).map (fun r => (splitChar ',' r).map String.mk)

/-- ensureGrid (lines 223-227): push fresh rows of 10 empty cells until
there are 50 rows, then pad every row to 20 cells. -/
def ensureGrid (rows : List (List String)) : List (List String) :=
  (rows ++ List.replicate (50 - rows.length) (List.replicate 10 "")).map (padRight 20 "")

/-- The grid write of handleCellChange (lines 230-232):
`newGrid[r][c] = val` on the displayed (padded) grid. -/
def setCell (grid : List (List String)) (r c : Nat) (val : String) :
    List (List String) :=
  match grid[r]? with
  | some row => grid.set r (row.set c val)
  | none => grid

/-- The serialization of handleCellChange (line 233):
`grid.map(row => row.join(',')).join('\n')`. -/
def sheetSerialize (grid : List (List String)) : String :=
  ⟨joinChar '\n' (grid.map (fun row => joinChar ',' (row.map String.data)))⟩

/-- handleCellChange (lines 230-234): write the cell on the padded display
grid and persist the serialization of the whole grid. -/
def handleCellChange (content : String) (r c : Nat) (val : String) : String :=
  sheetSerialize (setCell (ensureGrid (sheetRows content)) r c val)

/-- SlideEditor's title onChange (lines 190-194): split the content on
newlines, replace line 0 with the typed title, rejoin. -/
def slideTitleEdit (content newTitle : String) : String :=
  ⟨joinChar '\n' ((splitChar '\n' content.data).set 0 newTitle.data)⟩

/-- SlideEditor's body onChange (lines 200-204): `lines[0] + '\n' + rest`
where `rest` is the typed body.  `lines` is never empty (a split always
yields at least one piece), so `lines[0]` is its head. -/
def slideBodyEdit (content newBody : String) : String :=
  ⟨((splitChar '\n' content.data).headD []) ++ '\n' :: newBody.data⟩

/-- The optimistic user message of handleSendMessage (line 419). -/
def userMessage (text : String) (ts : Nat) : Message :=
  ⟨"user", text, none, ts⟩

/-- Outcome of the generateContent call for one send: the model's reply on
success (lines 443-466), or the caught failure (line 470). -/
inductive SendOutcome where
  | success (displayText : String) (specialist : String) (ts : Nat)
  | failure (errText : String) (ts : Nat)

/-- The message appended when the call settles: the specialist-labelled
model reply (line 466) or the model-authored System Error (line 470). -/
def settledMessage : SendOutcome → Message
  | .success t sp ts => ⟨"model", t, some sp, ts⟩
  | .failure e ts => ⟨"model", "**System Error:** " ++ e, none, ts⟩

/-- The active chat file's history across one complete send
(lines 419-474): the captured `newHistory` (prior history plus the user
message, written optimistically at line 423) with the settled message
appended to the captured list (line 467 on success, line 471 on failure —
both spread `newHistory`, not a re-read of the file). -/
def completedHistory (history : List Message) (userText : String) (ts : Nat)
    (o : SendOutcome) : List Message :=
  (history ++ [userMessage userText ts]) ++ [settledMessage o]

/-- The state handleSendMessage's guard reads and its synchronous writes
touch (lines 344-356, 414-425): the chat input, the API key, whether the
active file is a chat, the processing flag, and the active chat's parsed
history.  `outstanding` counts generateContent requests in flight. -/
structure ChatState where
  chatInput : String
  apiKey : String
  activeIsChat : Bool
  isProcessing : Bool
  outstanding : Nat
  history : List Message
  deriving DecidableEq

/-- The guard at the top of handleSendMessage (lines 415-417):
`if (!chatInput.trim() || !apiKey) return;` then the active-chat check.
The processing flag is not consulted. -/
def sendGuard (s : ChatState) : Bool :=
  !(jsTrim s.chatInput == "") && !(s.apiKey == "") && s.activeIsChat

/-- handleSendMessage up to issuing the request (lines 414-425): when the
guard passes, append the user message to the history, clear the input,
raise the processing flag, and put one more request in flight; otherwise a
complete no-op. -/
def startSend (s : ChatState) (ts : Nat) : ChatState :=
  if sendGuard s then
    { s with
        history := s.history ++ [userMessage s.chatInput ts],
        chatInput := "",
        isProcessing := true,
        outstanding := s.outstanding + 1 }
  else s

/-- UI events that can reach handleSendMessage: typing into the chat input
(line 531), pressing Enter in it (line 532), clicking the send button
(lines 537-543), and a pending request settling (lines 466-474). -/
inductive ChatEvent where
  | setInput (s : String)
  | pressEnter
  | clickSend
  | settle (reply : Message)

/-- One UI event step.  The input's onKeyDown calls handleSendMessage with
no further guard; the send button is `disabled={isProcessing}`; a settle
appends the reply (or error message) to the captured history and clears
the processing flag in the `finally` block. -/
def chatStep (s : ChatState) : ChatEvent → ChatState
  | .setInput str => { s with chatInput := str }
  | .pressEnter => startSend s 0
  | .clickSend => if s.isProcessing then s else startSend s 0
  | .settle reply =>
      if s.outstanding = 0 then s
      else { s with
               history := s.history ++ [reply],
               outstanding := s.outstanding - 1,
               isProcessing := false }

/-- Run a sequence of UI events. -/
def runChat (s : ChatState) (es : List ChatEvent) : ChatState :=
  es.foldl chatStep s

/-- A doc file used to populate example tab states. -/
def tabFile (i : String) : VirtualFile :=
  ⟨i, i, "doc", some ""⟩

/-- Example workspace with three open tabs, the middle one active. -/
def wsTabs : Workspace :=
  ⟨[tabFile "a", tabFile "b", tabFile "c"], ["a", "b", "c"], "b"⟩

/-- Idle chat session with an API key, an active chat file, and an empty
history. -/
def chatReady : ChatState :=
  ⟨"", "key", true, false, 0, []⟩

/-- Example file reachable by the directive's file_id. -/
def fileX : VirtualFile := ⟨"x", "n1", "doc", some "c1"⟩

/-- Example file reachable by the directive's file_name. -/
def fileY : VirtualFile := ⟨"y", "target", "doc", some "c2"⟩

/-- update_file directive whose file_name names `fileY` while its file_id
names `fileX`. -/
def dirBoth : Directive := ⟨"update_file", some "x", none, some "target", some "NEW"⟩

/-- update_file directive matching no file at all. -/
def dirMiss : Directive := ⟨"update_file", some "zz", none, some "nope", some "N"⟩

/-- Example files for the frame theorem: the directive's file_id names
`fileA8`, its file_name names `fileB8`. -/
def fileA8 : VirtualFile := ⟨"id1", "alpha", "doc", some "olda"⟩

/-- Companion file of `fileA8`, matched by name. -/
def fileB8 : VirtualFile := ⟨"id2", "beta", "sheet", some "oldb"⟩

/-- update_file directive with both a name match and an id match in the
`fileA8`/`fileB8` file set. -/
def dirC8 : Directive := ⟨"update_file", some "id1", none, some "beta", some "FRESH"⟩

/-- The initial chat file of the session (line 347). -/
def chatFile0 : VirtualFile := ⟨"1", "MWI_Chat", "chat", some "[]"⟩

/-- update_file directive that names the chat file but omits `content`. -/
def dirNoContent : Directive := ⟨"update_file", none, none, some "MWI_Chat", none⟩

/-- Workspace holding one file whose id is `abc`. -/
def wsOne : Workspace := ⟨[⟨"abc", "Old.doc", "doc", some "x"⟩], ["abc"], "abc"⟩

/-- A split never yields an empty list of pieces. -/
theorem splitChar_ne_nil (sep : Char) : ∀ l : List Char, splitChar sep l ≠ []
  | [] => by simp [splitChar]
  | c :: cs => by
    simp only [splitChar]
    split
    · simp
    · split
      · simp
      · simp

/-- Splitting a list that contains the separator yields at least two
pieces. -/
theorem two_le_splitChar_length (sep : Char) (l : List Char) (h : sep ∈ l) :
    2 ≤ (splitChar sep l).length := by
  induction l with
  | nil => cases h
  | cons c cs ih =>
    by_cases hc : c = sep
    · cases hcs : splitChar sep cs with
      | nil => exact absurd hcs (splitChar_ne_nil sep cs)
      | cons r rs => simp [splitChar, hc, hcs]
    · have hmem : sep ∈ cs := by
        rcases List.mem_cons.mp h with h1 | h2
        · exact absurd h1.symm hc
        · exact h2
      have ihh := ih hmem
      cases hcs : splitChar sep cs with
      | nil => exact absurd hcs (splitChar_ne_nil sep cs)
      | cons r rs =>
        rw [hcs] at ihh
        simpa [splitChar, hc, hcs] using ihh

/-- Joining two or more pieces puts the separator in the result. -/
theorem sep_mem_joinChar (sep : Char) (ls : List (List Char)) (h : 2 ≤ ls.length) :
    sep ∈ joinChar sep ls := by
  cases ls with
  | nil => simp at h
  | cons l1 t =>
    cases t with
    | nil => simp at h
    | cons l2 rest => simp [joinChar]

/-- C1 (counterexample): with open tabs `a, b, c` and `b` active, closing
`b` makes `c` active — the last tab of the remaining sequence — while the
tab immediately preceding the closed tab in the remaining sequence is `a`,
so the claimed fallback choice is refuted. -/
theorem closeTab_not_preceding :
    (closeTab wsTabs "b").activeTabId = "c" ∧
    specPrecedingTab wsTabs.openTabIds "b" = some "a" ∧
    (closeTab wsTabs "b").activeTabId ≠ (specPrecedingTab wsTabs.openTabIds "b").getD "" := by
  decide

/-- C1 (amended): closing the currently active tab sets the active tab to
the last tab of the remaining sequence, or to no active tab (`""`) when
the remaining sequence is empty. -/
theorem closeTab_active_selects_last (ws : Workspace) (id : String)
    (h : ws.activeTabId = id) :
    (closeTab ws id).activeTabId
      = ((ws.openTabIds.filter (fun tid => tid ≠ id)).getLast?).getD "" := by
  subst h
  simp [closeTab, jsIndexOr, List.getLast?_eq_getElem?]

/-- C1 (witness): the amended fallback rule evaluated on the three-tab
workspace with the middle tab active. -/
theorem closeTab_active_selects_last_witness :
    (closeTab wsTabs "b").activeTabId
      = ((wsTabs.openTabIds.filter (fun tid => tid ≠ "b")).getLast?).getD "" :=
  closeTab_active_selects_last wsTabs "b" rfl

/-- C4 (counterexample): a title edit on a slide whose content has no
newline persists content with no newline at all, refuting the claim that
any edit to either field leaves at least one newline between title and
body. -/
theorem slideTitleEdit_loses_newline :
    slideTitleEdit "Only Title" "New Title" = "New Title" ∧
    '\n' ∉ (slideTitleEdit "Only Title" "New Title").data := by
  decide

/-- C4 (amended): editing the body always persists content with at least
one newline separating title from body, and editing the title preserves at
least one newline whenever the prior content contained one (a title edit
on newline-free content stays newline-free, as the counterexample shows). -/
theorem slideEdit_newline (content newTitle newBody : String) :
    ('\n' ∈ content.data → '\n' ∈ (slideTitleEdit content newTitle).data) ∧
    '\n' ∈ (slideBodyEdit content newBody).data := by
  constructor
  · intro h
    show '\n' ∈ joinChar '\n' ((splitChar '\n' content.data).set 0 newTitle.data)
    apply sep_mem_joinChar
    rw [List.length_set]
    exact two_le_splitChar_length _ _ h
  · show '\n' ∈ ((splitChar '\n' content.data).headD []) ++ '\n' :: newBody.data
    simp

/-- C4 (witness): the amended newline preservation evaluated on a slide
with a title and a body line. -/
theorem slideEdit_newline_witness :
    '\n' ∈ (slideTitleEdit "A\nB" "T").data ∧ '\n' ∈ (slideBodyEdit "A" "B").data :=
  ⟨(slideEdit_newline "A\nB" "T" "B").1 (by decide), (slideEdit_newline "A" "T" "B").2⟩

/-- C6: one complete send grows the active chat's history by exactly two
messages — the user message is appended first and exactly one settled
model message (the reply on success, the System Error text on failure)
after it — leaving the prior history as an untouched front segment. -/
theorem completedHistory_adds_two (history : List Message) (userText : String)
    (ts : Nat) (o : SendOutcome) :
    (completedHistory history userText ts o).length = history.length + 2 ∧
    completedHistory history userText ts o
      = history ++ [userMessage userText ts, settledMessage o] ∧
    (userMessage userText ts).role = "user" ∧
    (settledMessage o).role = "model" := by
  refine ⟨?_, ?_, rfl, ?_⟩
  · simp [completedHistory]
  · simp [completedHistory]
  · cases o <;> rfl

/-- C9: dispatching an update_file directive that names an existing file
but omits its `content` field overwrites the target's content with the
runtime value `undefined` (`none`), breaking the `content: string`
invariant of the VirtualFile interface. -/
theorem updateFile_absent_content_stores_undefined :
    dispatchUpdateFile [chatFile0] dirNoContent = [⟨"1", "MWI_Chat", "chat", none⟩] ∧
    ∀ f ∈ dispatchUpdateFile [chatFile0] dirNoContent, f.content = none := by
  decide

/-- C10: with no API key configured, handleSendMessage returns at its
first guard: the state is unchanged — no user message is appended, no
request is put in flight, and no error is surfaced. -/
theorem startSend_noApiKey_noop (s : ChatState) (ts : Nat) (h : s.apiKey = "") :
    startSend s ts = s := by
  simp [startSend, sendGuard, h]

/-- C10 (witness): a non-blank input and an active chat still produce a
complete no-op when the API key is empty. -/
theorem startSend_noApiKey_noop_witness :
    startSend ⟨"hello", "", true, false, 0, []⟩ 0 = ⟨"hello", "", true, false, 0, []⟩ :=
  startSend_noApiKey_noop ⟨"hello", "", true, false, 0, []⟩ 0 rfl

/-- C2 (counterexample): from an idle session, typing and pressing Enter,
then typing again and pressing Enter while the first request is still in
flight, reaches a state with two outstanding requests: handleSendMessage
never consults the processing flag (only the send button is disabled), so
the second Enter-key send is not a no-op. -/
theorem enterKey_bypasses_processing_flag :
    (runChat chatReady [.setInput "first", .pressEnter, .setInput "second"]).isProcessing = true ∧
    chatStep (runChat chatReady [.setInput "first", .pressEnter, .setInput "second"]) .pressEnter
      ≠ runChat chatReady [.setInput "first", .pressEnter, .setInput "second"] ∧
    (runChat chatReady [.setInput "first", .pressEnter, .setInput "second", .pressEnter]).outstanding
      = 2 := by
  decide

/-- C2 (amended): a chat send is a complete no-op exactly when the trimmed
input is blank, no API key is configured, or the active file is not a
chat; the in-flight processing flag is not among the rejection conditions
(it only disables the send button), so an Enter-key send during an
in-flight request proceeds. -/
theorem startSend_noop_iff (s : ChatState) (ts : Nat) :
    startSend s ts = s ↔
      (jsTrim s.chatInput = "" ∨ s.apiKey = "" ∨ s.activeIsChat = false) := by
  have hiff : sendGuard s = false ↔
      (jsTrim s.chatInput = "" ∨ s.apiKey = "" ∨ s.activeIsChat = false) := by
    unfold sendGuard
    by_cases h1 : jsTrim s.chatInput = "" <;>
      by_cases h2 : s.apiKey = "" <;>
        cases hb : s.activeIsChat <;>
          simp [h1, h2, hb]
  constructor
  · intro heq
    rw [← hiff]
    by_contra hg
    rw [Bool.not_eq_false] at hg
    rw [startSend, if_pos hg] at heq
    have hout := congrArg ChatState.outstanding heq
    simp at hout
  · intro h
    rw [← hiff] at h
    simp [startSend, h]

/-- C3 (counterexample): editing the top-left cell of a 2-by-2 sheet — a
cell inside the user-entered extent, not in the padding region — persists
the fully padded 50-row grid instead of leaving the stored content at its
prior extent. -/
theorem handleCellChange_pads_persisted :
    handleCellChange "a,b\nc,d" 0 0 "x" ≠ "x,b\nc,d" ∧
    (splitChar '\n' (handleCellChange "a,b\nc,d" 0 0 "x").data).length = 50 := by
  constructor
  · decide
  · decide

/-- C3 (amended): every cell edit through the sheet editor persists the
serialization of the entire padded display grid — at least 50 rows, each
of at least 20 columns — regardless of whether the edited cell lies in the
padding region. -/
theorem handleCellChange_persists_padding (content : String) (r c : Nat) (val : String) :
    handleCellChange content r c val
      = sheetSerialize (setCell (ensureGrid (sheetRows content)) r c val) ∧
    50 ≤ (setCell (ensureGrid (sheetRows content)) r c val).length ∧
    ∀ row ∈ setCell (ensureGrid (sheetRows content)) r c val, 20 ≤ row.length := by
  have hlen : 50 ≤ (ensureGrid (sheetRows content)).length := by
    simp only [ensureGrid, List.length_map, List.length_append, List.length_replicate]
    omega
  have hrows : ∀ row ∈ ensureGrid (sheetRows content), 20 ≤ row.length := by
    intro q hq
    simp only [ensureGrid, List.mem_map] at hq
    obtain ⟨p, _, rfl⟩ := hq
    simp only [padRight, List.length_append, List.length_replicate]
    omega
  refine ⟨rfl, ?_, ?_⟩
  · unfold setCell
    cases hg : (ensureGrid (sheetRows content))[r]? with
    | none => simpa using hlen
    | some row => simpa [List.length_set] using hlen
  · intro row hrow
    unfold setCell at hrow
    cases hg : (ensureGrid (sheetRows content))[r]? with
    | none =>
      rw [hg] at hrow
      exact hrows row hrow
    | some row0 =>
      rw [hg] at hrow
      rcases List.mem_or_eq_of_mem_set hrow with h | rfl
      · exact hrows row h
      · have hmem : row0 ∈ ensureGrid (sheetRows content) := List.getElem?_mem hg
        simpa [List.length_set] using hrows row0 hmem

/-- C5 (counterexample): with a file whose id matches the directive's
file_id standing earlier in the file set than the file whose name matches
its file_name, the dispatcher resolves the id match, not the name match —
resolution is a first-match over `name === file_name || id === file_id`
per file, not file_name-first. -/
theorem updateFile_id_beats_name :
    findTarget [fileX, fileY] dirBoth = some fileX ∧
    specResolveTarget [fileX, fileY] dirBoth = some fileY ∧
    fileX ≠ fileY ∧
    dispatchUpdateFile [fileX, fileY] dirBoth
      = [⟨"x", "n1", "doc", some "NEW"⟩, fileY] := by
  decide

/-- C5 (amended): the dispatcher resolves the target as the first file (in
file-set order) matching the directive's file_name or file_id; the
file_id acts as a pure fallback only when no file matches by name, and
when neither field matches any file the directive is silently dropped,
leaving the file set unchanged. -/
theorem dispatchUpdateFile_resolution (files : List VirtualFile) (d : Directive) :
    ((∀ f ∈ files, (some f.name == d.file_name || some f.id == d.file_id) = false) →
      dispatchUpdateFile files d = files) ∧
    ((∀ f ∈ files, (some f.name == d.file_name) = false) →
      findTarget files d = files.find? (fun f => some f.id == d.file_id)) := by
  constructor
  · intro h
    have hnone : findTarget files d = none := by
      apply List.find?_eq_none.mpr
      intro f hf
      simp [h f hf]
    simp [dispatchUpdateFile, hnone]
  · intro h
    unfold findTarget
    induction files with
    | nil => rfl
    | cons f fs ih =>
      have hf : (some f.name == d.file_name) = false := h f (List.mem_cons_self f fs)
      have hrest : ∀ g ∈ fs, (some g.name == d.file_name) = false :=
        fun g hg => h g (List.mem_cons_of_mem f hg)
      simp only [List.find?_cons, hf, Bool.false_or]
      cases hid : (some f.id == d.file_id) with
      | true => rfl
      | false => exact ih hrest

/-- C5 (witness): a directive matching no file by name or by id leaves the
file set unchanged. -/
theorem dispatchUpdateFile_resolution_witness :
    dispatchUpdateFile [fileX, fileY] dirMiss = [fileX, fileY] :=
  (dispatchUpdateFile_resolution [fileX, fileY] dirMiss).1 (by decide)

/-- C7 (counterexample): the generated id is not checked against existing
ids, so when the Math.random oracle repeats an existing id the created
file's id occurs twice in the file set and the ids are no longer
pairwise distinct. -/
theorem createNewFile_id_collision :
    ((createNewFile wsOne "abc" "doc" none none).files.filter (fun f => f.id == "abc")).length = 2 ∧
    ¬ ((createNewFile wsOne "abc" "doc" none none).files.map VirtualFile.id).Nodup := by
  decide

/-- C7 (amended): whenever the generated id does not collide with an
existing file id (the source performs no uniqueness check), creating a
file yields an id occurring exactly once in the file set, appends the new
file at the end of the file set and its id at the end of the open-tab
sequence, and makes it the active tab. -/
theorem createNewFile_spec (ws : Workspace) (newId type : String)
    (name content : Option String) (h : ∀ f ∈ ws.files, f.id ≠ newId) :
    ((createNewFile ws newId type name content).files.filter (fun f => f.id == newId)).length = 1 ∧
    (createNewFile ws newId type name content).files.length = ws.files.length + 1 ∧
    ((createNewFile ws newId type name content).files.getLast?).map VirtualFile.id = some newId ∧
    (createNewFile ws newId type name content).openTabIds = ws.openTabIds ++ [newId] ∧
    (createNewFile ws newId type name content).activeTabId = newId := by
  have hnil : ws.files.filter (fun f => f.id == newId) = [] := by
    rw [List.filter_eq_nil_iff]
    intro f hf
    simp [h f hf]
  refine ⟨?_, ?_, ?_, rfl, rfl⟩
  · simp [createNewFile, List.filter_append, hnil]
  · simp [createNewFile]
  · simp [createNewFile, List.getLast?_concat]

/-- C7 (witness): creating a doc file with the fresh id `zzz` in the
one-file workspace. -/
theorem createNewFile_spec_witness :
    ((createNewFile wsOne "zzz" "doc" none none).files.filter (fun f => f.id == "zzz")).length = 1 ∧
    (createNewFile wsOne "zzz" "doc" none none).files.length = wsOne.files.length + 1 ∧
    ((createNewFile wsOne "zzz" "doc" none none).files.getLast?).map VirtualFile.id = some "zzz" ∧
    (createNewFile wsOne "zzz" "doc" none none).openTabIds = wsOne.openTabIds ++ ["zzz"] ∧
    (createNewFile wsOne "zzz" "doc" none none).activeTabId = "zzz" :=
  createNewFile_spec wsOne "zzz" "doc" none none (by decide)

/-- C8 (counterexample): a directive whose file_name matches `beta` but
whose file_id matches the earlier file `alpha` updates `alpha`, not the
name-matched file — so a matching file_name alone does not determine which
file's content is replaced. -/
theorem updateFile_name_match_not_updated :
    dispatchUpdateFile [fileA8, fileB8] dirC8
      = [⟨"id1", "alpha", "doc", some "FRESH"⟩, fileB8] ∧
    fileB8.name = "beta" ∧ dirC8.file_name = some "beta" ∧
    (⟨"id2", "beta", "sheet", some "FRESH"⟩ : VirtualFile) ∉
      dispatchUpdateFile [fileA8, fileB8] dirC8 := by
  decide

/-- C8 (amended): whenever the dispatcher resolves a target (the first
file matching the directive's file_name or file_id), dispatching replaces
the content of exactly the positions holding the target's id with the
directive's content — keeping id, name and type — and leaves every file
with a different id unchanged, preserving the file set's length and
order. -/
theorem dispatchUpdateFile_frame (files : List VirtualFile) (d : Directive)
    (t : VirtualFile) (h : findTarget files d = some t) :
    (dispatchUpdateFile files d).length = files.length ∧
    ∀ (i : Nat) (f : VirtualFile), files[i]? = some f →
      (dispatchUpdateFile files d)[i]?
        = some (if f.id = t.id then { f with content := d.content } else f) := by
  constructor
  · simp [dispatchUpdateFile, h, updateFileContent]
  · intro i f hf
    simp [dispatchUpdateFile, h, updateFileContent, List.getElem?_map, hf]

/-- C8 (witness): the frame property evaluated at the two-file set where
the id match wins over the name match. -/
theorem dispatchUpdateFile_frame_witness :
    (dispatchUpdateFile [fileA8, fileB8] dirC8).length = [fileA8, fileB8].length ∧
    ∀ (i : Nat) (f : VirtualFile), [fileA8, fileB8][i]? = some f →
      (dispatchUpdateFile [fileA8, fileB8] dirC8)[i]?
        = some (if f.id = fileA8.id then { f with content := dirC8.content } else f) :=
  dispatchUpdateFile_frame [fileA8, fileB8] dirC8 fileA8 (by decide)

end OmniApp
